import Mathlib

/-!
Shallow embedding of the signal subscription and delivery subsystem of
abstract-godbus (src/abstraction.go).

Modelling choices:
* Go channels of signal envelopes become `SigQueue`: a record of the
  channel capacity passed to `make` together with the list of buffered
  envelopes (head = next value a receive would return).
* The Go map `sigmap` becomes an association list with Go map semantics
  (`mapLookup`, `mapInsert` overwrites an existing key in place).
* A send on a queue appends at the tail (`mapEnqueue`); a receive takes the
  head.  Blocking is made explicit: `GetSignalResult.blocked` stands for a
  receive that suspends because the buffer is empty.
* Effects on the bus are returned as explicit logs: `listenSignalFromSender`
  returns the list of AddMatch calls it issued, `initSession` reports in
  `handlersStarted` how many signalsHandler goroutines it spawned.  In the
  source the line `go d.signalsHandler()` inside `InitSession` is commented
  out, so the embedding of `InitSession` spawns none.
* External collaborators (dbus.SessionBus, dbus.SystemBus, RequestName) are
  an oracle record `BusWorld` supplying their results.
-/

namespace AbstractGodbus

/-- A value carried in a signal body (`[]interface{}` in the source). -/
inductive GoVal where
  | int : Int → GoVal
  | str : String → GoVal
deriving DecidableEq, Repr

/-- One raw signal occurrence as delivered by the bus client
(`dbus.Signal`): originating bus name `sender`, fully qualified member
name `name` (of the form interface.member), and the argument list `body`. -/
structure DbusSignal where
  sender : String
  name : String
  body : List GoVal
deriving DecidableEq, Repr

/-- The envelope type of the source (`dbusAbsSignal`): the received signal
and a copy of its name. -/
structure DbusAbsSignal where
  recv : DbusSignal
  signame : String
deriving DecidableEq, Repr

/-- A delivery queue: the capacity given to `make(chan *dbusAbsSignal, c)`
(0 for the unbuffered `make(chan *dbusAbsSignal)`) and the buffered
envelopes, oldest first. -/
structure SigQueue where
  capacity : Nat
  buf : List DbusAbsSignal
deriving DecidableEq, Repr

/-- The Delivery Queue Map `sigmap`, with Go map semantics over an
association list. -/
abbrev SigMap := List (String × SigQueue)

/-- Go map read `m[k]`. -/
def mapLookup : SigMap → String → Option SigQueue
  | [], _ => none
  | (k, q) :: rest, s => if k = s then some q else mapLookup rest s

/-- Go map write `m[k] = v`: overwrite in place if the key exists,
otherwise add the binding. -/
def mapInsert : SigMap → String → SigQueue → SigMap
  | [], s, v => [(s, v)]
  | (k, q) :: rest, s, v =>
    if k = s then (s, v) :: rest else (k, q) :: mapInsert rest s v

/-- Channel send `m[k] <- e`: append the envelope to the buffer of the
queue stored at `k`; no-op when the key is absent (the source only sends
after a successful lookup). -/
def mapEnqueue : SigMap → String → DbusAbsSignal → SigMap
  | [], _, _ => []
  | (k, q) :: rest, s, e =>
    if k = s then (k, { q with buf := q.buf ++ [e] }) :: rest
    else (k, q) :: mapEnqueue rest s e

/-- The util `getGeneratedName` of the source: concatenate sender and
member with a dot to obtain the form sender.member. -/
def getGeneratedName (s m : String) : String :=
  s ++ "." ++ m

/-- The util `getSignalName` of the source: split on the dots and return
the rightmost part. -/
def getSignalName (s : String) : String :=
  let tmp := s.splitOn "."
  tmp.getLastD ""

/-- One AddMatch call issued over the bus
(`d.conn.BusObject().Call("org.freedesktop.DBus.AddMatch", 0, rule)`), with
the rule built from path, interface and sender. -/
structure AddMatchCall where
  path : String
  iface : String
  sender : String
deriving DecidableEq, Repr

/-- The state `ListenSignalFromSender`, `GetSignal` and `signalsHandler`
act on once a session exists: the Delivery Queue Map and the Sender
Registry (`sigmap` and `sigsenders` fields of `dbusAbstraction`). -/
structure SessionState where
  sigmap : SigMap
  sigsenders : List String
deriving DecidableEq, Repr

/-- The membership loop at the start of `ListenSignalFromSender`:
`for _, elem := range d.sigsenders { if elem == n { listened = true } }`. -/
def isListened (senders : List String) (n : String) : Bool :=
  senders.foldl (fun listened elem => if elem = n then true else listened) false

/-- The operation `ListenSignalFromSender(p, n, i, s)`.  Returns the new
state together with the AddMatch calls issued.  If the sender is already
listened, a queue for the identity is created unbuffered
(`make(chan *dbusAbsSignal)`) only when missing; otherwise the sender is
registered, one AddMatch call is issued, and a queue of capacity 1024 is
created (`make(chan *dbusAbsSignal, 1024)`). -/
def listenSignalFromSender (st : SessionState) (p n i s : String) :
    SessionState × List AddMatchCall :=
  if isListened st.sigsenders n then
    match mapLookup st.sigmap (getGeneratedName n s) with
    | some _ => (st, [])
    | none =>
      ({ st with
          sigmap := mapInsert st.sigmap (getGeneratedName n s)
            { capacity := 0, buf := [] } }, [])
  else
    ({ sigmap := mapInsert st.sigmap (getGeneratedName n s)
          { capacity := 1024, buf := [] },
       sigsenders := st.sigsenders ++ [n] },
     [{ path := p, iface := i, sender := n }])

/-- Run a sequence of `ListenSignalFromSender` calls, collecting all
AddMatch calls issued, in order. -/
def runListens (st : SessionState) :
    List (String × String × String × String) → SessionState × List AddMatchCall
  | [] => (st, [])
  | (p, n, i, s) :: rest =>
    let r1 := listenSignalFromSender st p n i s
    let r2 := runListens r1.1 rest
    (r2.1, r1.2 ++ r2.2)

/-- The body of the fan-in loop of `signalsHandler` for one occurrence `v`
read from `d.recv`: look up `v.Name` in the map; if present, build the
envelope and send it on that queue; otherwise drop the occurrence. -/
def handleSignal (m : SigMap) (v : DbusSignal) : SigMap :=
  match mapLookup m v.name with
  | some _ => mapEnqueue m v.name { recv := v, signame := v.name }
  | none => m

/-- The fan-in loop of `signalsHandler` over a finite prefix of the
incoming stream. -/
def runSignals (m : SigMap) (vs : List DbusSignal) : SigMap :=
  vs.foldl handleSignal m

/-- The error message `GetSignal` returns for an identity with no queue. -/
def notListenedMsg : String :=
  "[DBUS ABSTRACTION] - error - not listened signal"

/-- Result of `GetSignal`: the body of the received envelope and the map
after the receive, or `blocked` when the receive suspends on an empty
queue, or the error for an unsubscribed identity. -/
inductive GetSignalResult where
  | ok : List GoVal → SigMap → GetSignalResult
  | blocked : GetSignalResult
  | err : String → GetSignalResult
deriving DecidableEq, Repr

/-- The operation `GetSignal(s)`: if a queue exists for `s`, receive from
it (`t := <-d.sigmap[s]`) and return `t.recv.Body`; otherwise fail with
the not-listened error. -/
def getSignal (m : SigMap) (s : String) : GetSignalResult :=
  match mapLookup m s with
  | some q =>
    match q.buf with
    | [] => GetSignalResult.blocked
    | t :: rest =>
      GetSignalResult.ok t.recv.body (mapInsert m s { q with buf := rest })
  | none => GetSignalResult.err notListenedMsg

/-- The `SessionType` type of the source. -/
inductive SessionType where
  | SESSION
  | SYSTEM
deriving DecidableEq, Repr

/-- An established bus connection handle (`*dbus.Conn`), abstract. -/
structure Conn where
  id : Nat
deriving DecidableEq, Repr

/-- The reply of `RequestName` (dbus.RequestNameReply). -/
inductive RequestNameReply where
  | primaryOwner
  | inQueue
  | alreadyExists
  | alreadyOwner
deriving DecidableEq, Repr

/-- Oracle for the external bus client: the results `dbus.SessionBus()`,
`dbus.SystemBus()` and `conn.RequestName(n, dbus.NameFlagDoNotQueue)`
would produce during one call. -/
structure BusWorld where
  sessionBus : Except String Conn
  systemBus : Except String Conn
  requestName : String → Except String RequestNameReply

/-- The fields of `dbusAbstraction` touched by `InitSession`: `conn`,
`recv` (modelled by the capacity of the created channel, `none` for a nil
channel), `sigmap` (`none` for a nil map) and `sigsenders`. -/
structure DbusAbstraction where
  conn : Option Conn
  recv : Option Nat
  sigmap : Option SigMap
  sigsenders : List String
deriving DecidableEq, Repr

/-- The error message of the double-initialization guard. -/
def alreadyInitMsg : String :=
  "[DBUS ABSTRACTION ERROR - initSession - Session already initialized]"

/-- The error message when the requested name is already taken. -/
def nameTakenMsg : String :=
  "[DBUS ABSTRACTION ERROR - initSession - name already taken]"

/-- Result of `InitSession`: the receiver state after the call, the
returned error (`none` on success) and how many `signalsHandler`
goroutines the call spawned (0 in the source: the line
`go d.signalsHandler()` is commented out). -/
structure InitResult where
  state : DbusAbstraction
  err : Option String
  handlersStarted : Nat
deriving DecidableEq, Repr

/-- The operation `InitSession(s, n)`.  Guard against double init, connect
to the chosen bus, optionally request the name with the do-not-queue
policy, and only then store the connection and create the map and the
receive channel of capacity 1024. -/
def initSession (d : DbusAbstraction) (w : BusWorld) (s : SessionType)
    (n : String) : InitResult :=
  if d.conn.isSome then
    { state := d, err := some alreadyInitMsg, handlersStarted := 0 }
  else
    match (if s = SessionType.SESSION then w.sessionBus else w.systemBus) with
    | Except.error e => { state := d, err := some e, handlersStarted := 0 }
    | Except.ok conn =>
      let assign : InitResult :=
        { state := { d with conn := some conn, sigmap := some [], recv := some 1024 },
          err := none,
          handlersStarted := 0 }
      if n ≠ "" then
        match w.requestName n with
        | Except.error e => { state := d, err := some e, handlersStarted := 0 }
        | Except.ok reply =>
          if reply ≠ RequestNameReply.primaryOwner then
            { state := d, err := some nameTakenMsg, handlersStarted := 0 }
          else assign
      else assign

/-!  Helper lemmas about the map operations and the membership loop. -/

theorem mapLookup_mapInsert_self (m : SigMap) (k : String) (v : SigQueue) :
    mapLookup (mapInsert m k v) k = some v := by
  induction m with
  | nil => simp [mapInsert, mapLookup]
  | cons hd tl ih =>
    obtain ⟨k0, q0⟩ := hd
    by_cases h : k0 = k
    · simp [mapInsert, mapLookup, h]
    · simp [mapInsert, mapLookup, h, ih]

theorem mapLookup_mapInsert_ne (m : SigMap) (k k2 : String) (v : SigQueue)
    (h : k ≠ k2) : mapLookup (mapInsert m k v) k2 = mapLookup m k2 := by
  induction m with
  | nil => simp [mapInsert, mapLookup, h]
  | cons hd tl ih =>
    obtain ⟨k0, q0⟩ := hd
    by_cases h0 : k0 = k
    · subst h0
      simp [mapInsert, mapLookup, h]
    · simp [mapInsert, mapLookup, h0, ih]

theorem mapLookup_mapEnqueue_self (m : SigMap) (k : String) (e : DbusAbsSignal)
    (q : SigQueue) (h : mapLookup m k = some q) :
    mapLookup (mapEnqueue m k e) k
      = some { capacity := q.capacity, buf := q.buf ++ [e] } := by
  induction m with
  | nil => simp [mapLookup] at h
  | cons hd tl ih =>
    obtain ⟨k0, q0⟩ := hd
    by_cases h0 : k0 = k
    · subst h0
      simp [mapLookup] at h
      subst h
      simp [mapEnqueue, mapLookup]
    · simp [mapLookup, h0] at h
      simp [mapEnqueue, mapLookup, h0, ih h]

theorem mapLookup_mapEnqueue_ne (m : SigMap) (k k2 : String) (e : DbusAbsSignal)
    (h : k ≠ k2) : mapLookup (mapEnqueue m k e) k2 = mapLookup m k2 := by
  induction m with
  | nil => simp [mapEnqueue, mapLookup]
  | cons hd tl ih =>
    obtain ⟨k0, q0⟩ := hd
    by_cases h0 : k0 = k
    · subst h0
      simp [mapEnqueue, mapLookup, h]
    · simp [mapEnqueue, mapLookup, h0, ih]

theorem isListened_foldl (l : List String) (n : String) (acc : Bool) :
    l.foldl (fun listened elem => if elem = n then true else listened) acc
      = (acc || decide (n ∈ l)) := by
  induction l generalizing acc with
  | nil => simp
  | cons x xs ih =>
    rw [List.foldl_cons, ih]
    by_cases h : x = n
    · subst h
      simp
    · simp [h, Ne.symm h]

theorem isListened_eq_decide (l : List String) (n : String) :
    isListened l n = decide (n ∈ l) := by
  unfold isListened
  rw [isListened_foldl]
  simp

theorem isListened_false_not_mem (l : List String) (n : String)
    (h : isListened l n = false) : n ∉ l := by
  rw [isListened_eq_decide] at h
  simpa using h

theorem isListened_append_self (l : List String) (n : String) :
    isListened (l ++ [n]) n = true := by
  rw [isListened_eq_decide]
  simp

/-- Case analysis of `listenSignalFromSender`: the three control paths of
the source and the exact result on each. -/
theorem listen_cases (st : SessionState) (p n i s : String) :
    (isListened st.sigsenders n = true
      ∧ (∃ q, mapLookup st.sigmap (getGeneratedName n s) = some q)
      ∧ listenSignalFromSender st p n i s = (st, []))
  ∨ (isListened st.sigsenders n = true
      ∧ mapLookup st.sigmap (getGeneratedName n s) = none
      ∧ listenSignalFromSender st p n i s
          = ({ st with
                sigmap := mapInsert st.sigmap (getGeneratedName n s)
                  { capacity := 0, buf := [] } }, []))
  ∨ (isListened st.sigsenders n = false
      ∧ listenSignalFromSender st p n i s
          = ({ sigmap := mapInsert st.sigmap (getGeneratedName n s)
                  { capacity := 1024, buf := [] },
               sigsenders := st.sigsenders ++ [n] },
             [{ path := p, iface := i, sender := n }])) := by
  by_cases hb : isListened st.sigsenders n
  · cases hl : mapLookup st.sigmap (getGeneratedName n s) with
    | some q =>
      exact Or.inl ⟨hb, ⟨q, rfl⟩, by simp [listenSignalFromSender, hb, hl]⟩
    | none =>
      exact Or.inr (Or.inl ⟨hb, rfl, by simp [listenSignalFromSender, hb, hl]⟩)
  · exact Or.inr (Or.inr ⟨by simpa using hb,
      by simp [listenSignalFromSender, hb]⟩)

/-- After any `listenSignalFromSender` call, the sender is listened and a
queue exists for the identity of the call. -/
theorem listen_post (st : SessionState) (p n i s : String) :
    isListened ((listenSignalFromSender st p n i s).1).sigsenders n = true
    ∧ ∃ q, mapLookup ((listenSignalFromSender st p n i s).1).sigmap
        (getGeneratedName n s) = some q := by
  rcases listen_cases st p n i s with ⟨hb, ⟨q, hl⟩, he⟩ | ⟨hb, hl, he⟩ | ⟨hb, he⟩
  · rw [he]
    exact ⟨hb, ⟨q, hl⟩⟩
  · rw [he]
    exact ⟨hb, ⟨_, mapLookup_mapInsert_self _ _ _⟩⟩
  · rw [he]
    exact ⟨isListened_append_self _ _, ⟨_, mapLookup_mapInsert_self _ _ _⟩⟩

/-- When the sender is listened and the identity already has a queue,
`listenSignalFromSender` does nothing and issues no AddMatch call. -/
theorem listen_noop (st : SessionState) (p n i s : String)
    (hb : isListened st.sigsenders n = true)
    (hl : ∃ q, mapLookup st.sigmap (getGeneratedName n s) = some q) :
    listenSignalFromSender st p n i s = (st, []) := by
  obtain ⟨q, hq⟩ := hl
  simp [listenSignalFromSender, hb, hq]

/-- Every single `listenSignalFromSender` call issues at most one AddMatch
call. -/
theorem listen_rules_le_one (st : SessionState) (p n i s : String) :
    ((listenSignalFromSender st p n i s).2).length ≤ 1 := by
  rcases listen_cases st p n i s with ⟨_, _, he⟩ | ⟨_, _, he⟩ | ⟨_, he⟩ <;>
    simp [he]

/-- Claim C4: calling `listenSignalFromSender` twice with the same sender
and signal names installs at most one match rule and at most one queue:
the second call returns the state of the first call unchanged, issues no
AddMatch call, and across both calls at most one AddMatch call is made. -/
theorem listenSignalFromSender_idempotent (st : SessionState) (p n i s : String) :
    (listenSignalFromSender (listenSignalFromSender st p n i s).1 p n i s).1
        = (listenSignalFromSender st p n i s).1
    ∧ (listenSignalFromSender (listenSignalFromSender st p n i s).1 p n i s).2 = []
    ∧ ((listenSignalFromSender st p n i s).2
        ++ (listenSignalFromSender (listenSignalFromSender st p n i s).1 p n i s).2).length
        ≤ 1 := by
  obtain ⟨hb1, hq1⟩ := listen_post st p n i s
  have h2 := listen_noop (listenSignalFromSender st p n i s).1 p n i s hb1 hq1
  refine ⟨by rw [h2], by rw [h2], ?_⟩
  rw [h2]
  simpa using listen_rules_le_one st p n i s

/-- Sequences of `listenSignalFromSender` calls preserve distinctness of
the Sender Registry and extend it exactly by the senders of the AddMatch
calls they issue. -/
theorem runListens_registry (cs : List (String × String × String × String)) :
    ∀ st : SessionState, st.sigsenders.Nodup →
      ((runListens st cs).1).sigsenders.Nodup
      ∧ st.sigsenders ++ ((runListens st cs).2).map AddMatchCall.sender
          = ((runListens st cs).1).sigsenders := by
  induction cs with
  | nil =>
    intro st h
    simpa [runListens] using h
  | cons c cs ih =>
    intro st h
    obtain ⟨p, n, i, s⟩ := c
    rcases listen_cases st p n i s with ⟨hb, hq, he⟩ | ⟨hb, hl, he⟩ | ⟨hb, he⟩
    · have hr := ih st h
      simpa [runListens, he] using hr
    · have hr := ih (listenSignalFromSender st p n i s).1 (by rw [he]; exact h)
      rw [he] at hr
      simpa [runListens, he] using hr
    · have hmem : n ∉ st.sigsenders := isListened_false_not_mem _ _ hb
      have hnd : ((listenSignalFromSender st p n i s).1).sigsenders.Nodup := by
        rw [he]
        simp [List.nodup_append, h, hmem]
      have hr := ih (listenSignalFromSender st p n i s).1 hnd
      rw [he] at hr
      constructor
      · simpa [runListens, he] using hr.1
      · simpa [runListens, he, List.append_assoc] using hr.2

/-- Claim C7: starting from the freshly initialized state, after every
sequence of `listenSignalFromSender` calls the Sender Registry holds each
name at most once, and the senders of the AddMatch calls issued are
exactly the registry entries, in order: AddMatch was called exactly once
per distinct sender, at the moment the sender was appended. -/
theorem listen_sender_registry_invariant
    (cs : List (String × String × String × String)) :
    ((runListens { sigmap := [], sigsenders := [] } cs).1).sigsenders.Nodup
    ∧ ((runListens { sigmap := [], sigsenders := [] } cs).2).map AddMatchCall.sender
        = ((runListens { sigmap := [], sigsenders := [] } cs).1).sigsenders := by
  have h := runListens_registry cs { sigmap := [], sigsenders := [] } (by simp)
  simpa using h

/-- Claim C9: the identity key built by `getGeneratedName` is not
injective: the distinct pairs ("a", "b.c") and ("a.b", "c") generate the
same Subscription Identity string, so two distinct subscriptions can
collide on one queue key. -/
theorem getGeneratedName_not_injective :
    getGeneratedName "a" "b.c" = getGeneratedName "a.b" "c"
    ∧ (("a", "b.c") : String × String) ≠ ("a.b", "c") := by
  exact ⟨by decide, by decide⟩

/-- Claim C1, evaluated on the code: a successful `InitSession` on a fresh
instance creates the Delivery Queue Map and the receive channel but starts
zero `signalsHandler` workers, because the line that would spawn the
worker is commented out in the source; the claim expects exactly one. -/
theorem initSession_starts_no_handler :
    initSession { conn := none, recv := none, sigmap := none, sigsenders := [] }
        { sessionBus := Except.ok { id := 0 }, systemBus := Except.ok { id := 0 },
          requestName := fun _ => Except.ok RequestNameReply.primaryOwner }
        SessionType.SESSION ""
      = { state := { conn := some { id := 0 }, recv := some 1024,
                     sigmap := some [], sigsenders := [] },
          err := none, handlersStarted := 0 }
    ∧ (initSession { conn := none, recv := none, sigmap := none, sigsenders := [] }
        { sessionBus := Except.ok { id := 0 }, systemBus := Except.ok { id := 0 },
          requestName := fun _ => Except.ok RequestNameReply.primaryOwner }
        SessionType.SESSION "").handlersStarted ≠ 1 := by
  exact ⟨rfl, by decide⟩

/-- Claim C2, amended: the fan-in step routes an occurrence by its full
signal name field (interface.member as delivered by the bus client), not
by a sender.member key.  When a queue is registered under the name, the
envelope is appended to that queue and all other keys are untouched; when
no queue is registered under the name, the map is left unchanged and the
occurrence never surfaces. -/
theorem signalsHandler_routes_by_full_name (m : SigMap) (v : DbusSignal) :
    (∀ q, mapLookup m v.name = some q →
        mapLookup (handleSignal m v) v.name
          = some { capacity := q.capacity,
                   buf := q.buf ++ [{ recv := v, signame := v.name }] }
        ∧ ∀ k, k ≠ v.name → mapLookup (handleSignal m v) k = mapLookup m k)
    ∧ (mapLookup m v.name = none → handleSignal m v = m) := by
  constructor
  · intro q hq
    have he : handleSignal m v
        = mapEnqueue m v.name { recv := v, signame := v.name } := by
      simp [handleSignal, hq]
    constructor
    · rw [he]
      exact mapLookup_mapEnqueue_self m v.name _ q hq
    · intro k hk
      rw [he]
      exact mapLookup_mapEnqueue_ne m v.name k _ (Ne.symm hk)
  · intro hn
    simp [handleSignal, hn]

/-- Witness for C2 amended: with one queue registered under "x.y", an
occurrence named "x.y" lands in that queue, and an occurrence named "z"
leaves the map unchanged. -/
theorem signalsHandler_routes_by_full_name_witness :
    mapLookup (handleSignal [("x.y", { capacity := 1024, buf := [] })]
        { sender := "s", name := "x.y", body := [GoVal.int 1] }) "x.y"
      = some { capacity := 1024,
               buf := [{ recv := { sender := "s", name := "x.y", body := [GoVal.int 1] },
                         signame := "x.y" }] }
    ∧ handleSignal [("x.y", { capacity := 1024, buf := [] })]
        { sender := "s", name := "z", body := [] }
      = [("x.y", { capacity := 1024, buf := [] })] :=
  ⟨((signalsHandler_routes_by_full_name
      [("x.y", { capacity := 1024, buf := [] })]
      { sender := "s", name := "x.y", body := [GoVal.int 1] }).1
      { capacity := 1024, buf := [] } (by decide)).1,
   (signalsHandler_routes_by_full_name
      [("x.y", { capacity := 1024, buf := [] })]
      { sender := "s", name := "z", body := [] }).2 (by decide)⟩

/-- Counterexample to C2 as stated: subscribe to sender "a" and signal
"Sig", so a queue is registered under the identity a.Sig built from the
sender bus name and member name; an occurrence from sender "a" whose full
signal name is org.example.Iface.Sig (member "Sig") has exactly that
identity, yet the fan-in step drops it, because the lookup uses the full
signal name and no queue is registered under org.example.Iface.Sig: the
map is unchanged and the queue at a.Sig stays empty. -/
theorem signalsHandler_sender_member_counterexample :
    mapLookup ((listenSignalFromSender { sigmap := [], sigsenders := [] }
        "/org/example" "a" "org.example.Iface" "Sig").1).sigmap
        (getGeneratedName "a" "Sig")
      = some { capacity := 1024, buf := [] }
    ∧ ({ sender := "a", name := "org.example.Iface.Sig",
         body := [GoVal.int 7] } : DbusSignal).name
        = getGeneratedName "org.example.Iface" "Sig"
    ∧ mapLookup ((listenSignalFromSender { sigmap := [], sigsenders := [] }
        "/org/example" "a" "org.example.Iface" "Sig").1).sigmap
        "org.example.Iface.Sig" = none
    ∧ handleSignal ((listenSignalFromSender { sigmap := [], sigsenders := [] }
        "/org/example" "a" "org.example.Iface" "Sig").1).sigmap
        { sender := "a", name := "org.example.Iface.Sig", body := [GoVal.int 7] }
      = ((listenSignalFromSender { sigmap := [], sigsenders := [] }
        "/org/example" "a" "org.example.Iface" "Sig").1).sigmap := by
  exact ⟨by decide, by decide, by decide, by decide⟩

/-- Claim C3, amended: the queue created by the new-sender branch of
`listenSignalFromSender` has capacity 1024, but the queue created by the
already-listened-sender branch is unbuffered: it has capacity 0, not
1024. -/
theorem listen_queue_capacity_by_branch (st : SessionState) (p n i s : String) :
    (isListened st.sigsenders n = false →
        mapLookup ((listenSignalFromSender st p n i s).1).sigmap
          (getGeneratedName n s) = some { capacity := 1024, buf := [] })
    ∧ (isListened st.sigsenders n = true →
        mapLookup st.sigmap (getGeneratedName n s) = none →
        mapLookup ((listenSignalFromSender st p n i s).1).sigmap
          (getGeneratedName n s) = some { capacity := 0, buf := [] }) := by
  constructor
  · intro hb
    simp [listenSignalFromSender, hb, mapLookup_mapInsert_self]
  · intro hb hl
    simp [listenSignalFromSender, hb, hl, mapLookup_mapInsert_self]

/-- Witness for C3 amended: subscribing a new sender creates a queue of
capacity 1024; a second subscription for the same sender and a different
signal creates a queue of capacity 0. -/
theorem listen_queue_capacity_by_branch_witness :
    mapLookup ((listenSignalFromSender { sigmap := [], sigsenders := [] }
        "/p" "n" "i" "s1").1).sigmap (getGeneratedName "n" "s1")
      = some { capacity := 1024, buf := [] }
    ∧ mapLookup ((listenSignalFromSender
        { sigmap := [(getGeneratedName "n" "s1",
            { capacity := 1024, buf := [] })], sigsenders := ["n"] }
        "/p" "n" "i" "s2").1).sigmap (getGeneratedName "n" "s2")
      = some { capacity := 0, buf := [] } :=
  ⟨(listen_queue_capacity_by_branch { sigmap := [], sigsenders := [] }
      "/p" "n" "i" "s1").1 (by decide),
   (listen_queue_capacity_by_branch
      { sigmap := [(getGeneratedName "n" "s1", { capacity := 1024, buf := [] })],
        sigsenders := ["n"] }
      "/p" "n" "i" "s2").2 (by decide) (by decide)⟩

/-- Counterexample to C3 as stated: subscribe twice for the same sender
with two different signal names; the second queue is created by the
already-listened branch with capacity 0, not the fixed 1024. -/
theorem listen_capacity_counterexample :
    mapLookup ((listenSignalFromSender
        ((listenSignalFromSender { sigmap := [], sigsenders := [] }
          "/p" "n" "i" "s1").1) "/p" "n" "i" "s2").1).sigmap
        (getGeneratedName "n" "s2")
      = some { capacity := 0, buf := [] }
    ∧ (0 : Nat) ≠ 1024 := by
  exact ⟨by decide, by decide⟩

/-- Claim C5: when a queue exists for the identity and an envelope is
available, `getSignal` returns the body of the first envelope; when no
queue exists for the identity it fails immediately, without blocking,
with the not-listened error; and an error is returned in exactly that
case. -/
theorem getSignal_spec (m : SigMap) (s : String) :
    (∀ q e rest, mapLookup m s = some q → q.buf = e :: rest →
        getSignal m s = GetSignalResult.ok e.recv.body
          (mapInsert m s { capacity := q.capacity, buf := rest }))
    ∧ (mapLookup m s = none →
        getSignal m s = GetSignalResult.err notListenedMsg)
    ∧ (∀ msg, getSignal m s = GetSignalResult.err msg →
        mapLookup m s = none ∧ msg = notListenedMsg) := by
  refine ⟨?_, ?_, ?_⟩
  · intro q e rest hq hbuf
    simp [getSignal, hq, hbuf]
  · intro h
    simp [getSignal, h]
  · intro msg h
    cases hq : mapLookup m s with
    | some q =>
      cases hbuf : q.buf with
      | nil => simp [getSignal, hq, hbuf] at h
      | cons t rest => simp [getSignal, hq, hbuf] at h
    | none =>
      simp [getSignal, hq] at h
      exact ⟨rfl, h.symm⟩

/-- Witness for C5: with one buffered envelope under "a.b", `getSignal`
returns its body; on the empty map it fails with the not-listened
error. -/
theorem getSignal_spec_witness :
    getSignal [("a.b",
        { capacity := 1024,
          buf := [{ recv := { sender := "a", name := "a.b", body := [GoVal.int 5] },
                    signame := "a.b" }] })] "a.b"
      = GetSignalResult.ok [GoVal.int 5]
          (mapInsert [("a.b",
            { capacity := 1024,
              buf := [{ recv := { sender := "a", name := "a.b", body := [GoVal.int 5] },
                        signame := "a.b" }] })] "a.b"
            { capacity := 1024, buf := [] })
    ∧ getSignal [] "a.b" = GetSignalResult.err notListenedMsg :=
  ⟨(getSignal_spec [("a.b",
      { capacity := 1024,
        buf := [{ recv := { sender := "a", name := "a.b", body := [GoVal.int 5] },
                  signame := "a.b" }] })] "a.b").1
      { capacity := 1024,
        buf := [{ recv := { sender := "a", name := "a.b", body := [GoVal.int 5] },
                  signame := "a.b" }] }
      { recv := { sender := "a", name := "a.b", body := [GoVal.int 5] },
        signame := "a.b" } [] (by decide) (by decide),
   (getSignal_spec [] "a.b").2.1 (by decide)⟩

/-- One fan-in step on an occurrence whose name matches a registered key
appends its envelope to that queue. -/
theorem handleSignal_step (name0 : String) (mm : SigMap) (qq : SigQueue)
    (v : DbusSignal) (hv : v.name = name0) (hmm : mapLookup mm name0 = some qq) :
    mapLookup (handleSignal mm v) name0
      = some { capacity := qq.capacity,
               buf := qq.buf ++ [{ recv := v, signame := v.name }] } := by
  have hlk : mapLookup mm v.name = some qq := by
    rw [hv]
    exact hmm
  have he : handleSignal mm v
      = mapEnqueue mm v.name { recv := v, signame := v.name } := by
    simp [handleSignal, hlk]
  rw [he, hv]
  exact mapLookup_mapEnqueue_self mm name0 _ qq hmm

/-- Claim C8: delivery is FIFO per identity: if the fan-in loop reads
three occurrences for an identity whose queue starts empty, three
sequential `getSignal` calls on that identity return their bodies in the
same order. -/
theorem fifo_per_identity (m : SigMap) (name0 : String) (q : SigQueue)
    (hq : mapLookup m name0 = some q) (hempty : q.buf = [])
    (v1 v2 v3 : DbusSignal)
    (h1 : v1.name = name0) (h2 : v2.name = name0) (h3 : v3.name = name0) :
    ∃ m1 m2 m3 : SigMap,
      getSignal (runSignals m [v1, v2, v3]) name0
          = GetSignalResult.ok v1.body m1
      ∧ getSignal m1 name0 = GetSignalResult.ok v2.body m2
      ∧ getSignal m2 name0 = GetSignalResult.ok v3.body m3 := by
  have hs1 := handleSignal_step name0 m q v1 h1 hq
  have hs2 := handleSignal_step name0 (handleSignal m v1) _ v2 h2 hs1
  have hs3 := handleSignal_step name0 (handleSignal (handleSignal m v1) v2) _ v3 h3 hs2
  have hM3 : mapLookup (runSignals m [v1, v2, v3]) name0
      = some { capacity := q.capacity,
               buf := [{ recv := v1, signame := v1.name },
                       { recv := v2, signame := v2.name },
                       { recv := v3, signame := v3.name }] } := by
    simpa [runSignals, hempty] using hs3
  have g1 : getSignal (runSignals m [v1, v2, v3]) name0
      = GetSignalResult.ok v1.body
          (mapInsert (runSignals m [v1, v2, v3]) name0
            { capacity := q.capacity,
              buf := [{ recv := v2, signame := v2.name },
                      { recv := v3, signame := v3.name }] }) := by
    simp [getSignal, hM3]
  have l1 := mapLookup_mapInsert_self (runSignals m [v1, v2, v3]) name0
    { capacity := q.capacity,
      buf := [{ recv := v2, signame := v2.name },
              { recv := v3, signame := v3.name }] }
  have g2 : getSignal (mapInsert (runSignals m [v1, v2, v3]) name0
        { capacity := q.capacity,
          buf := [{ recv := v2, signame := v2.name },
                  { recv := v3, signame := v3.name }] }) name0
      = GetSignalResult.ok v2.body
          (mapInsert (mapInsert (runSignals m [v1, v2, v3]) name0
              { capacity := q.capacity,
                buf := [{ recv := v2, signame := v2.name },
                        { recv := v3, signame := v3.name }] }) name0
            { capacity := q.capacity,
              buf := [{ recv := v3, signame := v3.name }] }) := by
    simp [getSignal, l1]
  have l2 := mapLookup_mapInsert_self (mapInsert (runSignals m [v1, v2, v3]) name0
      { capacity := q.capacity,
        buf := [{ recv := v2, signame := v2.name },
                { recv := v3, signame := v3.name }] }) name0
    { capacity := q.capacity, buf := [{ recv := v3, signame := v3.name }] }
  have g3 : getSignal (mapInsert (mapInsert (runSignals m [v1, v2, v3]) name0
        { capacity := q.capacity,
          buf := [{ recv := v2, signame := v2.name },
                  { recv := v3, signame := v3.name }] }) name0
        { capacity := q.capacity,
          buf := [{ recv := v3, signame := v3.name }] }) name0
      = GetSignalResult.ok v3.body
          (mapInsert (mapInsert (mapInsert (runSignals m [v1, v2, v3]) name0
              { capacity := q.capacity,
                buf := [{ recv := v2, signame := v2.name },
                        { recv := v3, signame := v3.name }] }) name0
              { capacity := q.capacity,
                buf := [{ recv := v3, signame := v3.name }] }) name0
            { capacity := q.capacity, buf := [] }) := by
    simp [getSignal, l2]
  exact ⟨_, _, _, g1, g2, g3⟩

/-- Witness for C8: the spec scenario: subscribe to sender
com.example.Sender and signal StateChanged, inject three occurrences with
bodies one, two, three; the three `getSignal` calls return them in
order. -/
theorem fifo_per_identity_witness :
    ∃ m1 m2 m3 : SigMap,
      getSignal (runSignals
          ((listenSignalFromSender { sigmap := [], sigsenders := [] }
            "/x" "com.example.Sender" "i" "StateChanged").1).sigmap
          [{ sender := "com.example.Sender",
             name := getGeneratedName "com.example.Sender" "StateChanged",
             body := [GoVal.int 1] },
           { sender := "com.example.Sender",
             name := getGeneratedName "com.example.Sender" "StateChanged",
             body := [GoVal.int 2] },
           { sender := "com.example.Sender",
             name := getGeneratedName "com.example.Sender" "StateChanged",
             body := [GoVal.int 3] }])
          (getGeneratedName "com.example.Sender" "StateChanged")
        = GetSignalResult.ok [GoVal.int 1] m1
      ∧ getSignal m1 (getGeneratedName "com.example.Sender" "StateChanged")
        = GetSignalResult.ok [GoVal.int 2] m2
      ∧ getSignal m2 (getGeneratedName "com.example.Sender" "StateChanged")
        = GetSignalResult.ok [GoVal.int 3] m3 :=
  fifo_per_identity
    ((listenSignalFromSender { sigmap := [], sigsenders := [] }
      "/x" "com.example.Sender" "i" "StateChanged").1).sigmap
    (getGeneratedName "com.example.Sender" "StateChanged")
    { capacity := 1024, buf := [] } (by decide) (by decide)
    _ _ _ rfl rfl rfl

/-- Claim C6: calling `initSession` on an already-initialized instance
returns the already-initialized error and has no side effect: the whole
state, and in particular the first connection, is unchanged. -/
theorem initSession_already_initialized (d : DbusAbstraction) (w : BusWorld)
    (s : SessionType) (n : String) (c : Conn) (h : d.conn = some c) :
    initSession d w s n
      = { state := d, err := some alreadyInitMsg, handlersStarted := 0 }
    ∧ (initSession d w s n).state.conn = some c := by
  have he : initSession d w s n
      = { state := d, err := some alreadyInitMsg, handlersStarted := 0 } := by
    simp [initSession, h]
  refine ⟨he, ?_⟩
  rw [he]
  exact h

/-- Witness for C6: a second `initSession` on an instance holding
connection 7 fails with the already-initialized error and leaves the
instance intact. -/
theorem initSession_already_initialized_witness :
    initSession
        { conn := some { id := 7 }, recv := some 1024, sigmap := some [],
          sigsenders := [] }
        { sessionBus := Except.ok { id := 0 }, systemBus := Except.ok { id := 0 },
          requestName := fun _ => Except.ok RequestNameReply.primaryOwner }
        SessionType.SESSION "x"
      = { state := { conn := some { id := 7 }, recv := some 1024,
                     sigmap := some [], sigsenders := [] },
          err := some alreadyInitMsg, handlersStarted := 0 }
    ∧ (initSession
        { conn := some { id := 7 }, recv := some 1024, sigmap := some [],
          sigsenders := [] }
        { sessionBus := Except.ok { id := 0 }, systemBus := Except.ok { id := 0 },
          requestName := fun _ => Except.ok RequestNameReply.primaryOwner }
        SessionType.SESSION "x").state.conn = some { id := 7 } :=
  initSession_already_initialized _ _ _ _ { id := 7 } rfl

/-- Claim C10: whenever `initSession` on an uninitialized instance returns
an error, from any of its error paths, the state is left exactly as it
was, and a later `initSession` with a working bus succeeds: it is not
rejected by the already-initialized guard and stores the new
connection. -/
theorem initSession_failure_keeps_uninitialized (d : DbusAbstraction)
    (w : BusWorld) (s : SessionType) (n : String) (e : String)
    (h0 : d.conn = none)
    (herr : (initSession d w s n).err = some e) :
    (initSession d w s n).state = d
    ∧ ∀ (w2 : BusWorld) (c : Conn), w2.sessionBus = Except.ok c →
        (initSession (initSession d w s n).state w2 SessionType.SESSION "").err
          = none
        ∧ ((initSession (initSession d w s n).state w2
            SessionType.SESSION "").state).conn = some c := by
  have hstate : (initSession d w s n).state = d := by
    cases hc : (if s = SessionType.SESSION then w.sessionBus else w.systemBus) with
    | error e2 =>
      simp [initSession, h0, hc]
    | ok conn =>
      by_cases hn : n = ""
      · exfalso
        simp [initSession, h0, hc, hn] at herr
      · cases hr : w.requestName n with
        | error e2 =>
          simp [initSession, h0, hc, hn, hr]
        | ok reply =>
          by_cases hp : reply = RequestNameReply.primaryOwner
          · exfalso
            simp [initSession, h0, hc, hn, hr, hp] at herr
          · simp [initSession, h0, hc, hn, hr, hp]
  refine ⟨hstate, ?_⟩
  intro w2 c hw2
  rw [hstate]
  constructor
  · simp [initSession, h0, hw2]
  · simp [initSession, h0, hw2]

/-- Witness for C10: a fresh instance whose bus connection attempt fails
stays fully unset, and a retry against a working bus then succeeds and
stores connection 3. -/
theorem initSession_failure_keeps_uninitialized_witness :
    (initSession { conn := none, recv := none, sigmap := none, sigsenders := [] }
        { sessionBus := Except.error "boom", systemBus := Except.error "boom",
          requestName := fun _ => Except.ok RequestNameReply.primaryOwner }
        SessionType.SESSION "nm").state
      = { conn := none, recv := none, sigmap := none, sigsenders := [] }
    ∧ (initSession (initSession
        { conn := none, recv := none, sigmap := none, sigsenders := [] }
        { sessionBus := Except.error "boom", systemBus := Except.error "boom",
          requestName := fun _ => Except.ok RequestNameReply.primaryOwner }
        SessionType.SESSION "nm").state
        { sessionBus := Except.ok { id := 3 }, systemBus := Except.ok { id := 3 },
          requestName := fun _ => Except.ok RequestNameReply.primaryOwner }
        SessionType.SESSION "").err = none
    ∧ ((initSession (initSession
        { conn := none, recv := none, sigmap := none, sigsenders := [] }
        { sessionBus := Except.error "boom", systemBus := Except.error "boom",
          requestName := fun _ => Except.ok RequestNameReply.primaryOwner }
        SessionType.SESSION "nm").state
        { sessionBus := Except.ok { id := 3 }, systemBus := Except.ok { id := 3 },
          requestName := fun _ => Except.ok RequestNameReply.primaryOwner }
        SessionType.SESSION "").state).conn = some { id := 3 } := by
  have h := initSession_failure_keeps_uninitialized
    { conn := none, recv := none, sigmap := none, sigsenders := [] }
    { sessionBus := Except.error "boom", systemBus := Except.error "boom",
      requestName := fun _ => Except.ok RequestNameReply.primaryOwner }
    SessionType.SESSION "nm" "boom" rfl rfl
  have h2 := h.2
    { sessionBus := Except.ok { id := 3 }, systemBus := Except.ok { id := 3 },
      requestName := fun _ => Except.ok RequestNameReply.primaryOwner }
    { id := 3 } rfl
  exact ⟨h.1, h2.1, h2.2⟩

end AbstractGodbus
